import Mathlib

/-!
Shallow embedding of `src/user/bert_nmt.py` (bert-nmt plugin for fairseq):
the two dictionary adapters (`BertCompatibleDictionary`, `BertBasedDictionary`),
the encoder forward mask computation, the task-setup / checkpoint-load
dictionary compatibility checks, and the architecture preset functions.
-/

namespace BertNmt

/-! ## fairseq `Dictionary` state and `add_symbol`

`BertCompatibleDictionary` inherits from `fairseq.data.Dictionary` and calls its
`add_symbol` method. `add_symbol(word)` (external library, modelled faithfully to
fairseq's implementation): if the word is already indexed, bump its count and
return its existing index; otherwise append the word with count 1 and return the
fresh index `len(symbols)`. -/
structure Dict where
  symbols : List String
  count : List Nat
  indices : List (String × Nat)
deriving DecidableEq

/-- fairseq `Dictionary.add_symbol(word)` with the default count increment `n = 1`. -/
def add_symbol (d : Dict) (word : String) : Dict × Nat :=
  match d.indices.lookup word with
  | some idx => ({ d with count := d.count.set idx (d.count.getD idx 0 + 1) }, idx)
  | none =>
      let idx := d.symbols.length
      ({ symbols := d.symbols ++ [word],
         count := d.count ++ [1],
         indices := d.indices ++ [(word, idx)] }, idx)

/-- State of a `BertCompatibleDictionary` after `__init__` (bert_nmt.py lines 22-37). -/
structure BCDict extends Dict where
  unk_word : String
  pad_word : String
  eos_word : String
  pad_index : Nat
  unk_index : Nat
  eos_index : Nat
  nspecial : Nat
deriving DecidableEq

/-- `BertCompatibleDictionary.__init__(pad, eos, unk)`: skips the parent
constructor, starts from empty symbol/count/index state, then adds: pad,
`[unused1]`..`[unused99]`, unk, `<bos>`, eos; finally `nspecial = len(symbols)`. -/
def BCDict.init (pad eos unk : String) : BCDict :=
  let d0 : Dict := ⟨[], [], []⟩
  let r1 := add_symbol d0 pad
  let d2 := (List.range' 1 99).foldl
    (fun d i => (add_symbol d ("[unused" ++ toString i ++ "]")).1) r1.1
  let r3 := add_symbol d2 unk
  let r4 := add_symbol r3.1 "<bos>"
  let r5 := add_symbol r4.1 eos
  { toDict := r5.1
    unk_word := unk, pad_word := pad, eos_word := eos
    pad_index := r1.2
    unk_index := r3.2
    eos_index := r5.2
    nspecial := r5.1.symbols.length }

/-- `BertCompatibleDictionary()` with the Python default arguments
`pad='<pad>', eos='</s>', unk='<unk>'` (the only form the repository constructs,
in `load_dictionary` via `.load` and in `build_dictionary`). -/
def BCDict.initDefault : BCDict := BCDict.init "<pad>" "</s>" "<unk>"

/-- The expected reserved-symbol layout: pad, the 99 `[unusedN]` placeholders,
unk, `<bos>`, eos. -/
def reservedSymbols : List String :=
  "<pad>" :: ((List.range' 1 99).map (fun i => "[unused" ++ toString i ++ "]")
    ++ ["<unk>", "<bos>", "</s>"])

/-! ## `BertBasedDictionary` and the wrapped `BertTokenizer`

The `BertTokenizer` from `pytorch_pretrained_bert` (external library) is modelled
by its vocabulary file — a list of tokens whose line number is the token id — and
its subword tokenization function. `convert_tokens_to_ids` maps a token to its
vocabulary position; `convert_ids_to_tokens` maps an id back to the token at that
position. -/
structure BertTok where
  vocab : List String
  tokenize : String → List String

/-- `BertTokenizer.convert_tokens_to_ids` (vocabulary lookup, position = id). -/
def convert_tokens_to_ids (tk : BertTok) (ws : List String) : List Nat :=
  ws.map (fun w => tk.vocab.indexOf w)

/-- `BertTokenizer.convert_ids_to_tokens` (inverse vocabulary lookup). -/
def convert_ids_to_tokens (tk : BertTok) (ids : List Nat) : List String :=
  ids.map (fun i => tk.vocab.getD i "")

/-- Python `name.find(sub) >= 0`: `sub` occurs as a substring of `name`. -/
def strContains (name sub : String) : Bool :=
  decide (sub.data <:+: name.data)

/-- The `do_lower_case` flag computed by `BertBasedDictionary.__create_tokenizer`
(bert_nmt.py line 62): `name == 'bert-base-chinese' or name.find('uncased') >= 0`. -/
def doLowerCase (name : String) : Bool :=
  name == "bert-base-chinese" || strContains name "uncased"

/-- The seven pretrained checkpoint names accepted by the `--bert-name` argument
of `BertTranslationTask.add_args` (bert_nmt.py lines 195-201). -/
def supportedBertNames : List String :=
  ["bert-base-cased", "bert-base-uncased",
   "bert-large-cased", "bert-large-uncased",
   "bert-base-multilingual-uncased",
   "bert-base-multilingual-cased",
   "bert-base-chinese"]

/-- Result of `BertBasedDictionary.encode_line`: the ids returned to the caller
and the optional diagnostic (`print(line)` fires exactly when the tokenized
length exceeds 512; nothing is raised and nothing is truncated). -/
structure EncodeResult where
  diagnostic : Option String
  ids : List Nat
deriving DecidableEq

/-- `BertBasedDictionary.encode_line(line, reverse_order)` (bert_nmt.py lines
89-98): tokenize, print the line if more than 512 tokens, optionally reverse,
prepend `[CLS]`, append `[SEP]`, convert to ids. -/
def encode_line (tk : BertTok) (line : String) (reverse_order : Bool) : EncodeResult :=
  let words := tk.tokenize line
  let diag := if words.length > 512 then some line else none
  let words := if reverse_order then words.reverse else words
  let words := "[CLS]" :: (words ++ ["[SEP]"])
  { diagnostic := diag, ids := convert_tokens_to_ids tk words }

/-- `BertBasedDictionary.string(tensor)` on a 1-dimensional tensor (bert_nmt.py
lines 78-87): convert ids to tokens and join with spaces. -/
def dictString (tk : BertTok) (ids : List Nat) : String :=
  String.intercalate " " (convert_ids_to_tokens tk ids)

/-! ## `BertTranslationEncoder.forward` mask computation -/

/-- What one `BertTranslationEncoder.forward` call (bert_nmt.py lines 124-134)
computes around the wrapped model: the attention mask passed as the third
argument of `self.bert(...)`, and the padding mask returned as the second
component of the encoder output (`None` when no position equals the pad index). -/
structure ForwardMasks where
  attention_mask : List (List Bool)
  encoder_padding_mask : Option (List (List Bool))
deriving DecidableEq

/-- The mask computation of `BertTranslationEncoder.forward`:
`paddings = src_tokens.eq(pad)`, `masks = paddings ^ 1`, and
`paddings = None` when `not paddings.any()`. -/
def encoderForwardMasks (pad : Nat) (src_tokens : List (List Nat)) : ForwardMasks :=
  let paddings := src_tokens.map (fun row => row.map (fun t => t == pad))
  let masks := paddings.map (fun row => row.map (fun b => b ^^ true))
  { attention_mask := masks
    encoder_padding_mask :=
      if paddings.any (fun row => row.any id) then some paddings else none }

/-! ## Dictionary compatibility checks at task setup and checkpoint load -/

/-- The special-token indices a dictionary exposes through its `pad()`, `unk()`,
`bos()` and `eos()` accessors. For `BertBasedDictionary` these are cached from
the tokenizer at construction; for the target dictionary they come from the
loaded symbol table. -/
structure SpecialIds where
  pad : Nat
  unk : Nat
  bos : Nat
  eos : Nat
deriving DecidableEq

/-- The special ids a `BertBasedDictionary` caches at construction
(bert_nmt.py lines 43-44): `convert_tokens_to_ids(['[PAD]','[UNK]','[CLS]','[SEP]'])`. -/
def bertBasedSpecialIds (tk : BertTok) : SpecialIds :=
  { pad := tk.vocab.indexOf "[PAD]"
    unk := tk.vocab.indexOf "[UNK]"
    bos := tk.vocab.indexOf "[CLS]"
    eos := tk.vocab.indexOf "[SEP]" }

/-- The three `assert` statements shared by `BertTranslationTask.setup_task`
(bert_nmt.py lines 241-243) and `load_pretrained_model` (lines 213-215), in
source order: pad, then eos, then unk. A failed assertion is a raised
`AssertionError`, modelled as `Except.error` carrying the `"%d != %d"` message. -/
def checkDictCompat (src tgt : SpecialIds) : Except String Unit :=
  if src.pad ≠ tgt.pad then .error (toString src.pad ++ " != " ++ toString tgt.pad)
  else if src.eos ≠ tgt.eos then .error (toString src.eos ++ " != " ++ toString tgt.eos)
  else if src.unk ≠ tgt.unk then .error (toString src.unk ++ " != " ++ toString tgt.unk)
  else .ok ()

/-- The dictionary-facing behaviour of `BertTranslationTask.setup_task`
(bert_nmt.py lines 239-247): given the constructed source dictionary and the
loaded target dictionary, run the three asserts; on success the task is built
from exactly these two dictionaries. -/
def setup_task (src tgt : SpecialIds) : Except String (SpecialIds × SpecialIds) :=
  match checkDictCompat src tgt with
  | .error e => .error e
  | .ok _ => .ok (src, tgt)

/-- The dictionary-facing behaviour of `BertTranslationTask.load_pretrained_model`
(bert_nmt.py lines 206-221): run the three asserts on the freshly constructed
source dictionary and the loaded target dictionary; only after they pass is the
task created and the model built from it. -/
def load_pretrained_model (src tgt : SpecialIds) :
    Except String (SpecialIds × SpecialIds) :=
  match checkDictCompat src tgt with
  | .error e => .error e
  | .ok _ => .ok (src, tgt)

/-- Whether a modelled operation succeeded (no assertion failed). -/
def succeeds {α : Type} (e : Except String α) : Bool :=
  match e with
  | .ok _ => true
  | .error _ => false

/-! ## Architecture presets

The `argparse.Namespace` mutated by the three `@register_model_architecture`
functions. A hyperparameter field is `none` when the attribute is absent (so
`getattr(args, f, d)` yields `d`) and `some v` when it was set to `v`.
`bert_name` is the required `--bert-name` task argument, read unconditionally by
`bert_nmt_base`. Python float literals `0.`, `0.1`, `0.3` are modelled as exact
rationals. `decoder_embed_path` and `adaptive_softmax_cutoff` default to Python
`None`, modelled as an inner `Option`. -/
structure Config where
  bert_name : String
  bert_layer : Option Int
  decoder_embed_path : Option (Option String)
  decoder_embed_dim : Option Nat
  decoder_ffn_embed_dim : Option Nat
  decoder_layers : Option Nat
  decoder_attention_heads : Option Nat
  decoder_normalize_before : Option Bool
  decoder_learned_pos : Option Bool
  attention_dropout : Option ℚ
  relu_dropout : Option ℚ
  dropout : Option ℚ
  adaptive_softmax_cutoff : Option (Option String)
  adaptive_softmax_dropout : Option ℚ
  share_decoder_input_output_embed : Option Bool
  share_all_embeddings : Option Bool
  no_token_positional_embeddings : Option Bool
  adaptive_input : Option Bool
  decoder_output_dim : Option Nat
  decoder_input_dim : Option Nat
deriving DecidableEq

/-- `bert_nmt_base(args)` (bert_nmt.py lines 279-303). Every field is filled
with `getattr(args, field, default)` — keeping an existing value — except
`decoder_embed_dim`, which is assigned unconditionally from `args.bert_name`
(768 when the name contains `'base'`, 1024 otherwise). The sequential `let`s
mirror the in-place mutation order; `decoder_output_dim` and
`decoder_input_dim` read the already-updated `decoder_embed_dim`. -/
def bert_nmt_base (args : Config) : Config :=
  let args := { args with bert_layer := some (args.bert_layer.getD (-2)) }
  let args := { args with decoder_embed_path := some (args.decoder_embed_path.getD none) }
  let args := { args with decoder_embed_dim := some (if strContains args.bert_name "base" then 768 else 1024) }
  let args := { args with decoder_ffn_embed_dim := some (args.decoder_ffn_embed_dim.getD 2048) }
  let args := { args with decoder_layers := some (args.decoder_layers.getD 6) }
  let args := { args with decoder_attention_heads := some (args.decoder_attention_heads.getD 8) }
  let args := { args with decoder_normalize_before := some (args.decoder_normalize_before.getD false) }
  let args := { args with decoder_learned_pos := some (args.decoder_learned_pos.getD false) }
  let args := { args with attention_dropout := some (args.attention_dropout.getD 0) }
  let args := { args with relu_dropout := some (args.relu_dropout.getD 0) }
  let args := { args with dropout := some (args.dropout.getD (1/10)) }
  let args := { args with adaptive_softmax_cutoff := some (args.adaptive_softmax_cutoff.getD none) }
  let args := { args with adaptive_softmax_dropout := some (args.adaptive_softmax_dropout.getD 0) }
  let args := { args with share_decoder_input_output_embed := some (args.share_decoder_input_output_embed.getD false) }
  let args := { args with share_all_embeddings := some (args.share_all_embeddings.getD false) }
  let args := { args with no_token_positional_embeddings := some (args.no_token_positional_embeddings.getD false) }
  let args := { args with adaptive_input := some (args.adaptive_input.getD false) }
  let args := { args with decoder_output_dim := some (args.decoder_output_dim.getD (args.decoder_embed_dim.getD 0)) }
  let args := { args with decoder_input_dim := some (args.decoder_input_dim.getD (args.decoder_embed_dim.getD 0)) }
  args

/-- `bert_nmt_big(args)` (bert_nmt.py lines 306-311): three overriding defaults,
then delegation to `bert_nmt_base`. -/
def bert_nmt_big (args : Config) : Config :=
  let args := { args with decoder_ffn_embed_dim := some (args.decoder_ffn_embed_dim.getD 4096) }
  let args := { args with decoder_attention_heads := some (args.decoder_attention_heads.getD 16) }
  let args := { args with dropout := some (args.dropout.getD (3/10)) }
  bert_nmt_base args

/-- `bert_nmt_big_t2t(args)` (bert_nmt.py lines 314-319): normalization defaults,
then delegation to `bert_nmt_big`. -/
def bert_nmt_big_t2t (args : Config) : Config :=
  let args := { args with decoder_normalize_before := some (args.decoder_normalize_before.getD true) }
  let args := { args with attention_dropout := some (args.attention_dropout.getD (1/10)) }
  let args := { args with relu_dropout := some (args.relu_dropout.getD (1/10)) }
  bert_nmt_big args

/-- A configuration carrying only the required `--bert-name` argument, every
architecture hyperparameter still absent. -/
def emptyConfig (name : String) : Config :=
  { bert_name := name
    bert_layer := none, decoder_embed_path := none, decoder_embed_dim := none
    decoder_ffn_embed_dim := none, decoder_layers := none
    decoder_attention_heads := none, decoder_normalize_before := none
    decoder_learned_pos := none, attention_dropout := none, relu_dropout := none
    dropout := none, adaptive_softmax_cutoff := none
    adaptive_softmax_dropout := none, share_decoder_input_output_embed := none
    share_all_embeddings := none, no_token_positional_embeddings := none
    adaptive_input := none, decoder_output_dim := none, decoder_input_dim := none }

/-- A preset leaves every already-set hyperparameter field unchanged, with the
single exception of `decoder_embed_dim` (which `bert_nmt_base` overwrites
unconditionally). `bert_name` is never written at all. -/
def PreservesSetFields (P : Config → Config) : Prop :=
  ∀ cfg : Config,
    (P cfg).bert_name = cfg.bert_name ∧
    ((P cfg).bert_layer = cfg.bert_layer ∨ cfg.bert_layer = none) ∧
    ((P cfg).decoder_embed_path = cfg.decoder_embed_path ∨ cfg.decoder_embed_path = none) ∧
    ((P cfg).decoder_ffn_embed_dim = cfg.decoder_ffn_embed_dim ∨ cfg.decoder_ffn_embed_dim = none) ∧
    ((P cfg).decoder_layers = cfg.decoder_layers ∨ cfg.decoder_layers = none) ∧
    ((P cfg).decoder_attention_heads = cfg.decoder_attention_heads ∨ cfg.decoder_attention_heads = none) ∧
    ((P cfg).decoder_normalize_before = cfg.decoder_normalize_before ∨ cfg.decoder_normalize_before = none) ∧
    ((P cfg).decoder_learned_pos = cfg.decoder_learned_pos ∨ cfg.decoder_learned_pos = none) ∧
    ((P cfg).attention_dropout = cfg.attention_dropout ∨ cfg.attention_dropout = none) ∧
    ((P cfg).relu_dropout = cfg.relu_dropout ∨ cfg.relu_dropout = none) ∧
    ((P cfg).dropout = cfg.dropout ∨ cfg.dropout = none) ∧
    ((P cfg).adaptive_softmax_cutoff = cfg.adaptive_softmax_cutoff ∨ cfg.adaptive_softmax_cutoff = none) ∧
    ((P cfg).adaptive_softmax_dropout = cfg.adaptive_softmax_dropout ∨ cfg.adaptive_softmax_dropout = none) ∧
    ((P cfg).share_decoder_input_output_embed = cfg.share_decoder_input_output_embed ∨ cfg.share_decoder_input_output_embed = none) ∧
    ((P cfg).share_all_embeddings = cfg.share_all_embeddings ∨ cfg.share_all_embeddings = none) ∧
    ((P cfg).no_token_positional_embeddings = cfg.no_token_positional_embeddings ∨ cfg.no_token_positional_embeddings = none) ∧
    ((P cfg).adaptive_input = cfg.adaptive_input ∨ cfg.adaptive_input = none) ∧
    ((P cfg).decoder_output_dim = cfg.decoder_output_dim ∨ cfg.decoder_output_dim = none) ∧
    ((P cfg).decoder_input_dim = cfg.decoder_input_dim ∨ cfg.decoder_input_dim = none)


/-- A small concrete tokenizer used by witnesses: six-token vocabulary,
splitting the line `"hello world"` into its two words. -/
def tkSmall : BertTok :=
  ⟨["[PAD]", "[UNK]", "[CLS]", "[SEP]", "hello", "world"],
   fun line => if line = "hello world" then ["hello", "world"] else []⟩

/-- A concrete tokenizer family used by witnesses: every line tokenizes to `n`
copies of the token `"a"`. -/
def tkRep (n : Nat) : BertTok :=
  ⟨["[PAD]", "[UNK]", "[CLS]", "[SEP]", "a"], fun _ => List.replicate n "a"⟩

/-! ## Theorems -/

set_option maxRecDepth 10000

lemma lookup_eq_none_of_not_mem_keys (ps : List (String × Nat)) (w : String)
    (h : w ∉ ps.map Prod.fst) : ps.lookup w = none := by
  induction ps with
  | nil => rfl
  | cons p ps ih =>
    obtain ⟨a, b⟩ := p
    simp only [List.map_cons, List.mem_cons, not_or] at h
    have hne : (w == a) = false := beq_eq_false_iff_ne.mpr h.1
    simp [List.lookup, hne, ih h.2]

/-- The fully evaluated state of `BertCompatibleDictionary()` built with the
default arguments: the 103 reserved symbols in order, each with count 1 and
index equal to its position. -/
lemma initDefault_eq : BCDict.initDefault =
    { toDict := { symbols := reservedSymbols,
                  count := List.replicate 103 1,
                  indices := reservedSymbols.enum.map (fun p => (p.2, p.1)) },
      unk_word := "<unk>", pad_word := "<pad>", eos_word := "</s>",
      pad_index := 0, unk_index := 100, eos_index := 102, nspecial := 103 } := by
  decide

lemma reservedSymbols_length : reservedSymbols.length = 103 := by
  simp [reservedSymbols]

/-- C1: `BertCompatibleDictionary.__init__` puts the pad symbol at index 0 for
any arguments; with its default arguments it inserts, in order, `<pad>`, the 99
placeholder symbols `[unused1]`..`[unused99]`, `<unk>`, `<bos>`, `</s>`,
reserving exactly 103 symbols (`nspecial = 103`) before any learned symbol:
the next symbol added after construction receives index 103. -/
theorem claim_C1 :
    (∀ pad eos unk, (BCDict.init pad eos unk).pad_index = 0) ∧
    BCDict.initDefault.symbols = reservedSymbols ∧
    BCDict.initDefault.nspecial = 103 ∧
    BCDict.initDefault.pad_index = 0 ∧
    BCDict.initDefault.unk_index = 100 ∧
    BCDict.initDefault.eos_index = 102 ∧
    (∀ w, w ∉ BCDict.initDefault.symbols →
      (add_symbol BCDict.initDefault.toDict w).2 = 103) := by
  refine ⟨fun pad eos unk => rfl, ?_, ?_, ?_, ?_, ?_, ?_⟩
  · rw [initDefault_eq]
  · rw [initDefault_eq]
  · rw [initDefault_eq]
  · rw [initDefault_eq]
  · rw [initDefault_eq]
  · intro w hw
    rw [initDefault_eq] at hw ⊢
    have hkeys : ((reservedSymbols.enum.map (fun p => (p.2, p.1))).map Prod.fst)
        = reservedSymbols := by
      rw [List.map_map]
      exact List.enum_map_snd reservedSymbols
    have hlk : (reservedSymbols.enum.map (fun p => (p.2, p.1))).lookup w = none := by
      apply lookup_eq_none_of_not_mem_keys
      rw [hkeys]
      exact hw
    simp [add_symbol, hlk, reservedSymbols_length]

/-- Witness for C1 at concrete inputs: the default construction and a fresh
word `"hello"` receiving index 103. -/
theorem claim_C1_witness :
    (BCDict.init "<pad>" "</s>" "<unk>").pad_index = 0 ∧
    (add_symbol BCDict.initDefault.toDict "hello").2 = 103 :=
  ⟨claim_C1.1 "<pad>" "</s>" "<unk>",
   claim_C1.2.2.2.2.2.2 "hello" (by rw [initDefault_eq]; decide)⟩

/-- C2: task setup and pretrained-model loading fail (the assertion raises)
exactly when the Bert-Based source dictionary and the loaded target dictionary
disagree on the pad, eos or unk index; with all three matching, both succeed and
the task/model is built from exactly those two dictionaries, so the produced
indices match. On failure no task or model value is produced. -/
theorem claim_C2 : ∀ src tgt : SpecialIds,
    (succeeds (setup_task src tgt) = true ↔
      (src.pad = tgt.pad ∧ src.eos = tgt.eos ∧ src.unk = tgt.unk)) ∧
    (succeeds (load_pretrained_model src tgt) = true ↔
      (src.pad = tgt.pad ∧ src.eos = tgt.eos ∧ src.unk = tgt.unk)) ∧
    (src.pad = tgt.pad → src.eos = tgt.eos → src.unk = tgt.unk →
      setup_task src tgt = .ok (src, tgt) ∧
      load_pretrained_model src tgt = .ok (src, tgt)) := by
  intro src tgt
  by_cases h1 : src.pad = tgt.pad <;>
    by_cases h2 : src.eos = tgt.eos <;>
      by_cases h3 : src.unk = tgt.unk <;>
        simp [setup_task, load_pretrained_model, checkDictCompat, succeeds, h1, h2, h3]

/-- Witness for C2: matching dictionaries (pad 0, unk 100, bos 101, eos 102 on
both sides) succeed and produce the matching pair; an eos mismatch fails. -/
theorem claim_C2_witness :
    setup_task ⟨0, 100, 101, 102⟩ ⟨0, 100, 101, 102⟩
      = .ok (⟨0, 100, 101, 102⟩, ⟨0, 100, 101, 102⟩) ∧
    load_pretrained_model ⟨0, 100, 101, 102⟩ ⟨0, 100, 101, 102⟩
      = .ok (⟨0, 100, 101, 102⟩, ⟨0, 100, 101, 102⟩) ∧
    ¬ succeeds (setup_task ⟨0, 100, 101, 102⟩ ⟨0, 100, 101, 999⟩) = true := by
  refine ⟨((claim_C2 _ _).2.2 rfl rfl rfl).1, ((claim_C2 _ _).2.2 rfl rfl rfl).2, ?_⟩
  intro hT
  have h := ((claim_C2 ⟨0, 100, 101, 102⟩ ⟨0, 100, 101, 999⟩).1).mp hT
  exact absurd h.2.1 (by decide)

/-- C10: the compatibility checks compare only pad, eos and unk; the bos index
is never compared, so task setup and pretrained-model loading both succeed even
when the two dictionaries disagree on bos. -/
theorem claim_C10 : ∀ src tgt : SpecialIds,
    src.pad = tgt.pad → src.eos = tgt.eos → src.unk = tgt.unk →
    src.bos ≠ tgt.bos →
    succeeds (setup_task src tgt) = true ∧
    succeeds (load_pretrained_model src tgt) = true := by
  intro src tgt h1 h2 h3 _
  simp [setup_task, load_pretrained_model, checkDictCompat, succeeds, h1, h2, h3]

/-- Witness for C10: dictionaries that agree on pad/unk/eos but have bos 101
versus bos 555 pass both checks. -/
theorem claim_C10_witness :
    succeeds (setup_task ⟨0, 100, 101, 102⟩ ⟨0, 100, 555, 102⟩) = true ∧
    succeeds (load_pretrained_model ⟨0, 100, 101, 102⟩ ⟨0, 100, 555, 102⟩) = true :=
  claim_C10 ⟨0, 100, 101, 102⟩ ⟨0, 100, 555, 102⟩ rfl rfl rfl (by decide)

/-- C3: `BertTranslationEncoder.forward` computes the padding mask as the
positions equal to the pad index and always passes its complement as the
attention mask to the wrapped model; the returned padding mask is the `None`
sentinel when no position in the batch is padding, and the literal boolean
padding mask when at least one position is padding. -/
theorem claim_C3 : ∀ (pad : Nat) (src_tokens : List (List Nat)),
    (encoderForwardMasks pad src_tokens).attention_mask
      = src_tokens.map (fun row => row.map (fun t => !(t == pad))) ∧
    ((∀ row ∈ src_tokens, ∀ t ∈ row, t ≠ pad) →
      (encoderForwardMasks pad src_tokens).encoder_padding_mask = none) ∧
    ((∃ row ∈ src_tokens, ∃ t ∈ row, t = pad) →
      (encoderForwardMasks pad src_tokens).encoder_padding_mask
        = some (src_tokens.map (fun row => row.map (fun t => t == pad)))) := by
  intro pad toks
  refine ⟨?_, ?_, ?_⟩
  · simp [encoderForwardMasks, List.map_map, Function.comp]
  · intro h
    have hc : ((toks.map (fun row => row.map (fun t => t == pad))).any
        (fun row => row.any id)) = false := by
      rw [List.any_eq_false]
      intro row hrow
      rw [List.mem_map] at hrow
      obtain ⟨r0, hr0, rfl⟩ := hrow
      rw [Bool.not_eq_true, List.any_eq_false]
      intro b hb
      rw [List.mem_map] at hb
      obtain ⟨t, ht, rfl⟩ := hb
      simpa using h r0 hr0 t ht
    simp [encoderForwardMasks, hc]
  · rintro ⟨row, hrow, t, ht, rfl⟩
    have hc : ((toks.map (fun row => row.map (fun u => u == t))).any
        (fun row => row.any id)) = true := by
      rw [List.any_eq_true]
      refine ⟨row.map (fun u => u == t), List.mem_map_of_mem _ hrow, ?_⟩
      rw [List.any_eq_true]
      exact ⟨(t == t), List.mem_map_of_mem _ ht, by simp⟩
    simp [encoderForwardMasks, hc]

/-- Witness for C3: with pad index 0, the batch `[[1, 2]]` has no padding and
yields the `None` sentinel; the batch `[[1, 0]]` has one padded position and
yields the literal mask. -/
theorem claim_C3_witness :
    (encoderForwardMasks 0 [[1, 2]]).encoder_padding_mask = none ∧
    (encoderForwardMasks 0 [[1, 0]]).encoder_padding_mask
      = some [[false, true]] := by
  constructor
  · exact (claim_C3 0 [[1, 2]]).2.1 (by decide)
  · have h := (claim_C3 0 [[1, 0]]).2.2 ⟨[1, 0], by decide, 0, by decide, rfl⟩
    simpa using h

/-- C5: the tokenizer lowercases input exactly for identifiers containing
`"uncased"` or equal to `bert-base-chinese`; enumerated over the seven
supported `--bert-name` values, the cased checkpoints preserve case and the
uncased/Chinese ones lowercase. -/
theorem claim_C5 :
    (∀ name : String,
      doLowerCase name = true ↔
        (strContains name "uncased" = true ∨ name = "bert-base-chinese")) ∧
    doLowerCase "bert-base-cased" = false ∧
    doLowerCase "bert-base-uncased" = true ∧
    doLowerCase "bert-large-cased" = false ∧
    doLowerCase "bert-large-uncased" = true ∧
    doLowerCase "bert-base-multilingual-uncased" = true ∧
    doLowerCase "bert-base-multilingual-cased" = false ∧
    doLowerCase "bert-base-chinese" = true := by
  refine ⟨?_, by decide, by decide, by decide, by decide, by decide, by decide, by decide⟩
  intro name
  simp only [doLowerCase, Bool.or_eq_true, beq_iff_eq]
  exact or_comm

/-- Witness for C5: the general characterization applied at
`bert-base-multilingual-uncased`. -/
theorem claim_C5_witness :
    doLowerCase "bert-base-multilingual-uncased" = true :=
  (claim_C5.1 "bert-base-multilingual-uncased").mpr (Or.inl (by decide))

lemma getD_indexOf (l : List String) (w : String) (h : w ∈ l) :
    l.getD (l.indexOf w) "" = w := by
  have hg := List.indexOf_get? h
  rw [List.get?_eq_getElem?] at hg
  simp [List.getD, hg]

/-- C4: for a line whose subword tokenization is shorter than 512 tokens
(and whose tokens, like every `BertTokenizer.tokenize` output, are vocabulary
entries), `encode_line` without `reverse_order` followed by `string` reproduces
the original subword token sequence: the decoded token list is exactly
`[CLS]`, the original tokens, `[SEP]`, so dropping the two injected structural
tokens recovers the input tokens, and the decoded string is their
space-separated join. -/
theorem claim_C4 (tk : BertTok) (line : String)
    (_hlen : (tk.tokenize line).length < 512)
    (hmem : ∀ w ∈ tk.tokenize line, w ∈ tk.vocab)
    (hcls : "[CLS]" ∈ tk.vocab) (hsep : "[SEP]" ∈ tk.vocab) :
    convert_ids_to_tokens tk (encode_line tk line false).ids
      = "[CLS]" :: (tk.tokenize line ++ ["[SEP]"]) ∧
    ((convert_ids_to_tokens tk (encode_line tk line false).ids).drop 1).dropLast
      = tk.tokenize line ∧
    dictString tk (encode_line tk line false).ids
      = String.intercalate " " ("[CLS]" :: (tk.tokenize line ++ ["[SEP]"])) := by
  have hdecode : convert_ids_to_tokens tk (encode_line tk line false).ids
      = "[CLS]" :: (tk.tokenize line ++ ["[SEP]"]) := by
    simp only [encode_line, convert_ids_to_tokens, convert_tokens_to_ids,
      if_false, List.map_map]
    apply List.map_congr_left ?_ |>.trans (List.map_id _)
    intro w hw
    simp only [Function.comp]
    apply getD_indexOf
    rcases List.mem_cons.mp hw with hw | hw
    · exact hw ▸ hcls
    · rcases List.mem_append.mp hw with hw | hw
      · exact hmem w hw
      · rw [List.mem_singleton.mp hw]
        exact hsep
  refine ⟨hdecode, ?_, ?_⟩
  · rw [hdecode]
    simp [List.dropLast_concat]
  · rw [dictString, hdecode]

/-- Witness for C4: the two-word tokenizer on the line `"hello world"`. -/
theorem claim_C4_witness :
    convert_ids_to_tokens tkSmall (encode_line tkSmall "hello world" false).ids
      = "[CLS]" :: (tkSmall.tokenize "hello world" ++ ["[SEP]"]) ∧
    ((convert_ids_to_tokens tkSmall (encode_line tkSmall "hello world" false).ids).drop 1).dropLast
      = tkSmall.tokenize "hello world" ∧
    dictString tkSmall (encode_line tkSmall "hello world" false).ids
      = String.intercalate " " ("[CLS]" :: (tkSmall.tokenize "hello world" ++ ["[SEP]"])) :=
  claim_C4 tkSmall "hello world" (by decide) (by decide) (by decide) (by decide)

/-- C6: `encode_line` prints the line (non-fatal diagnostic) exactly when the
token count exceeds 512, emits no diagnostic otherwise, and in every case
returns the full encoded sequence of token count + 2 ids — it never raises and
never truncates (it is a total function in this embedding). -/
theorem claim_C6 : ∀ (tk : BertTok) (line : String) (rev : Bool),
    ((tk.tokenize line).length > 512 →
      (encode_line tk line rev).diagnostic = some line) ∧
    ((tk.tokenize line).length ≤ 512 →
      (encode_line tk line rev).diagnostic = none) ∧
    (encode_line tk line rev).ids.length = (tk.tokenize line).length + 2 := by
  intro tk line rev
  refine ⟨fun h => ?_, fun h => ?_, ?_⟩
  · simp [encode_line, h]
  · simp [encode_line, Nat.not_lt.mpr h]
  · cases rev <;> simp [encode_line, convert_tokens_to_ids]

/-- Witness for C6: a 513-token line is printed, a 2-token line is not, and
the 2-token line encodes to 4 ids. -/
theorem claim_C6_witness :
    (encode_line (tkRep 513) "x" false).diagnostic = some "x" ∧
    (encode_line (tkRep 2) "x" false).diagnostic = none ∧
    (encode_line (tkRep 2) "x" false).ids.length = 4 := by
  refine ⟨(claim_C6 (tkRep 513) "x" false).1 (by decide),
          (claim_C6 (tkRep 2) "x" false).2.1 (by decide), ?_⟩
  have h := (claim_C6 (tkRep 2) "x" false).2.2
  simpa [tkRep] using h

/-- C9: every `encode_line` output has length token count + 2, starts with the
`[CLS]` id and ends with the `[SEP]` id even under `reverse_order` (the
structural tokens are added after the reversal); the 512 diagnostic is decided
on the pre-wrap token count, so 511- and 512-token lines produce 513- and
514-id outputs with no diagnostic. -/
theorem claim_C9 : ∀ (tk : BertTok) (line : String) (rev : Bool),
    (encode_line tk line rev).ids.length = (tk.tokenize line).length + 2 ∧
    (encode_line tk line rev).ids.head? = some (tk.vocab.indexOf "[CLS]") ∧
    (encode_line tk line rev).ids.getLast? = some (tk.vocab.indexOf "[SEP]") ∧
    ((tk.tokenize line).length = 511 →
      (encode_line tk line rev).ids.length = 513 ∧
      (encode_line tk line rev).diagnostic = none) ∧
    ((tk.tokenize line).length = 512 →
      (encode_line tk line rev).ids.length = 514 ∧
      (encode_line tk line rev).diagnostic = none) := by
  intro tk line rev
  have hlen : (encode_line tk line rev).ids.length = (tk.tokenize line).length + 2 := by
    cases rev <;> simp [encode_line, convert_tokens_to_ids]
  refine ⟨hlen, ?_, ?_, ?_, ?_⟩
  · simp [encode_line, convert_tokens_to_ids]
  · simp only [encode_line, convert_tokens_to_ids, List.map_cons, List.map_append]
    rw [← List.cons_append, List.getLast?_append_cons]
    rfl
  · intro h
    exact ⟨by rw [hlen, h], by simp [encode_line, h]⟩
  · intro h
    exact ⟨by rw [hlen, h], by simp [encode_line, h]⟩

/-- Witness for C9: 511- and 512-token lines (the latter with
`reverse_order`) produce 513 and 514 ids, both without diagnostic. -/
theorem claim_C9_witness :
    (encode_line (tkRep 511) "x" false).ids.length = 513 ∧
    (encode_line (tkRep 511) "x" false).diagnostic = none ∧
    (encode_line (tkRep 512) "x" true).ids.length = 514 ∧
    (encode_line (tkRep 512) "x" true).diagnostic = none := by
  have h1 := (claim_C9 (tkRep 511) "x" false).2.2.2.1 (by decide)
  have h2 := (claim_C9 (tkRep 512) "x" true).2.2.2.2 (by decide)
  exact ⟨h1.1, h1.2, h2.1, h2.2⟩

lemma some_getD_or_none {α : Type} (o : Option α) (d : α) :
    some (o.getD d) = o ∨ o = none := by
  cases o <;> simp

/-- C7 counterexample: the claim "every field already set before the preset is
applied is unchanged" is false — a config with `decoder_embed_dim` already set
to 100 has it overwritten to 768 by `bert_nmt_base` (line 283-286 assigns it
unconditionally from the model name), and hence by the big and t2t presets
that delegate to it. -/
theorem claim_C7_counterexample :
    ({ emptyConfig "bert-base-cased" with decoder_embed_dim := some 100 } : Config).decoder_embed_dim = some 100 ∧
    (bert_nmt_base { emptyConfig "bert-base-cased" with decoder_embed_dim := some 100 }).decoder_embed_dim = some 768 ∧
    (bert_nmt_big { emptyConfig "bert-base-cased" with decoder_embed_dim := some 100 }).decoder_embed_dim = some 768 ∧
    (bert_nmt_big_t2t { emptyConfig "bert-base-cased" with decoder_embed_dim := some 100 }).decoder_embed_dim = some 768 ∧
    (some 768 : Option Nat) ≠ some 100 := by
  refine ⟨rfl, rfl, rfl, rfl, by decide⟩

/-- C7 amended: every architecture preset fills only hyperparameter fields not
yet present — every already-set field keeps its value — with the single
exception of `decoder_embed_dim`, which `bert_nmt_base` (and so the big and
t2t presets, which delegate to it) always overwrites with 768 when the model
name contains `"base"` and 1024 otherwise. -/
theorem claim_C7_amended :
    PreservesSetFields bert_nmt_base ∧
    PreservesSetFields bert_nmt_big ∧
    PreservesSetFields bert_nmt_big_t2t ∧
    (∀ cfg : Config,
      (bert_nmt_base cfg).decoder_embed_dim
        = some (if strContains cfg.bert_name "base" then 768 else 1024) ∧
      (bert_nmt_big cfg).decoder_embed_dim
        = some (if strContains cfg.bert_name "base" then 768 else 1024) ∧
      (bert_nmt_big_t2t cfg).decoder_embed_dim
        = some (if strContains cfg.bert_name "base" then 768 else 1024)) := by
  refine ⟨fun cfg => ?_, fun cfg => ?_, fun cfg => ?_, fun cfg => ⟨rfl, rfl, rfl⟩⟩ <;>
    refine ⟨?_, ?_, ?_, ?_, ?_, ?_, ?_, ?_, ?_, ?_, ?_, ?_, ?_, ?_, ?_, ?_, ?_, ?_, ?_⟩ <;>
      first
        | rfl
        | (dsimp only [bert_nmt_base, bert_nmt_big, bert_nmt_big_t2t, Option.getD]
           exact some_getD_or_none _ _)

/-- C8: `bert_nmt_big` applied to a configuration with no hyperparameter set
yields `decoder_ffn_embed_dim = 4096`, `decoder_attention_heads = 16`,
`dropout = 0.3`, and every `bert_nmt_base` default for the remaining fields
(`decoder_embed_dim`, and with it the output/input dims, depending on whether
the required model name contains `"base"`). -/
theorem claim_C8 : ∀ name : String,
    (bert_nmt_big (emptyConfig name)).decoder_ffn_embed_dim = some 4096 ∧
    (bert_nmt_big (emptyConfig name)).decoder_attention_heads = some 16 ∧
    (bert_nmt_big (emptyConfig name)).dropout = some (3/10) ∧
    (bert_nmt_big (emptyConfig name)).bert_layer = some (-2) ∧
    (bert_nmt_big (emptyConfig name)).decoder_embed_path = some none ∧
    (bert_nmt_big (emptyConfig name)).decoder_embed_dim
      = some (if strContains name "base" then 768 else 1024) ∧
    (bert_nmt_big (emptyConfig name)).decoder_layers = some 6 ∧
    (bert_nmt_big (emptyConfig name)).decoder_normalize_before = some false ∧
    (bert_nmt_big (emptyConfig name)).decoder_learned_pos = some false ∧
    (bert_nmt_big (emptyConfig name)).attention_dropout = some 0 ∧
    (bert_nmt_big (emptyConfig name)).relu_dropout = some 0 ∧
    (bert_nmt_big (emptyConfig name)).adaptive_softmax_cutoff = some none ∧
    (bert_nmt_big (emptyConfig name)).adaptive_softmax_dropout = some 0 ∧
    (bert_nmt_big (emptyConfig name)).share_decoder_input_output_embed = some false ∧
    (bert_nmt_big (emptyConfig name)).share_all_embeddings = some false ∧
    (bert_nmt_big (emptyConfig name)).no_token_positional_embeddings = some false ∧
    (bert_nmt_big (emptyConfig name)).adaptive_input = some false ∧
    (bert_nmt_big (emptyConfig name)).decoder_output_dim
      = some (if strContains name "base" then 768 else 1024) ∧
    (bert_nmt_big (emptyConfig name)).decoder_input_dim
      = some (if strContains name "base" then 768 else 1024) := by
  intro name
  exact ⟨rfl, rfl, rfl, rfl, rfl, rfl, rfl, rfl, rfl, rfl, rfl, rfl, rfl, rfl,
    rfl, rfl, rfl, rfl, rfl⟩

end BertNmt
